import Mathlib

/-!
Verification of the xpedia-parts-scrapers-node LKQ scrape engine.

A shallow embedding of the core scraper (src/scrapers/lkq-scraper.js, here
src/unnamed/part_003), the proxy rotator (src/config/proxy.js,
src/services/proxy-manager.js), the queue executor
(src/queues/scraper.queue.js) and the Prisma persistence layer
(prisma/schema.prisma), together with theorems about the claims of the
specification.

Modelling conventions:
* JavaScript dynamic values are the inductive `JSVal`.  JS numbers are
  modelled as rationals (no claim performs float arithmetic, and `NaN` is
  conflated with `null` into `Option.none` where a field can hold either;
  no claim distinguishes them).
* Host-library functions external to the repository (`JSON.parse`,
  `parseFloat` and `parseInt` on strings) are taken as parameters of the
  embedding, so theorems hold for every behaviour of those libraries.
* The database is a list of rows; Prisma's `upsert` keyed on the unique
  `sku` column either overwrites the matching row in place or appends.
* Network outcomes, per-record persistence failures and transaction
  failures are oracles (functions from attempt/index to outcome), so the
  control flow is settled for every upstream behaviour.
* Timestamps, logging and sleeping have no effect on any claim and are not
  modelled.
-/

namespace Xpedia

/-- A JavaScript runtime value (undefined, null, boolean, number, string,
array, object).  Numbers are modelled as rationals. -/
inductive JSVal where
  | undefined : JSVal
  | jnull : JSVal
  | bool (b : Bool) : JSVal
  | num (q : ℚ) : JSVal
  | str (s : String) : JSVal
  | arr (xs : List JSVal) : JSVal
  | obj (fields : List (String × JSVal)) : JSVal

/-- JS truthiness: `undefined`, `null`, `false`, `0` and `""` are falsy,
everything else (including every array and object) is truthy.
(`NaN` is not representable; no claim depends on it.) -/
def truthy : JSVal → Bool
  | .undefined => false
  | .jnull => false
  | .bool b => b
  | .num q => !(q == 0)
  | .str s => !(s == "")
  | .arr _ => true
  | .obj _ => true

/-- JS `a || b`. -/
def jsOr (a b : JSVal) : JSVal := if truthy a then a else b

/-- JS property access `v[k]`: looks a key up in an object, `undefined`
otherwise.  (Accessing a property of `null`/`undefined` throws in JS; the
one place the scraper does this, `data.data` in `extractProductsFromApi`,
sits inside a try/catch that returns `[]`, which coincides with the
`undefined → [] ` path modelled here.) -/
def fld : JSVal → String → JSVal
  | .obj fs, k => match fs.find? (fun p => p.1 == k) with
    | some p => p.2
    | none => .undefined
  | _, _ => .undefined

/-- Full recursive JS string conversion (`String(v)`).  Number formatting
and the rendering of `null`/`undefined` inside arrays are approximations;
no claim inspects a rendered number or array. -/
def jsToStringRec : JSVal → String
  | .undefined => "undefined"
  | .jnull => "null"
  | .bool b => cond b "true" "false"
  | .num q => toString q
  | .str s => s
  | .arr xs => String.intercalate "," (xs.attach.map (fun x => jsToStringRec x.1))
  | .obj _ => "[object Object]"
decreasing_by
  simp_wf
  have := List.sizeOf_lt_of_mem x.2
  omega

/-- JS `String(v)`.  Identical to `jsToStringRec` (see
`jsToString_eq_rec`); the non-recursive cases are spelled out so ground
terms reduce structurally. -/
def jsToString : JSVal → String
  | .undefined => "undefined"
  | .jnull => "null"
  | .bool b => cond b "true" "false"
  | .num q => toString q
  | .str s => s
  | .arr xs => jsToStringRec (.arr xs)
  | .obj fs => jsToStringRec (.obj fs)

theorem jsToString_eq_rec : ∀ v, jsToString v = jsToStringRec v := by
  intro v
  cases v <;> simp [jsToString, jsToStringRec]

/-- Full recursive model of `JSON.stringify` (string escaping and number
formatting approximated; no claim inspects the rendered text). -/
def stringifyRec : JSVal → String
  | .undefined => "undefined"
  | .jnull => "null"
  | .bool b => cond b "true" "false"
  | .num q => toString q
  | .str s => "\"" ++ s ++ "\""
  | .arr xs =>
      "[" ++ String.intercalate "," (xs.attach.map (fun x => stringifyRec x.1)) ++ "]"
  | .obj fs =>
      "\x7b" ++
        String.intercalate ","
          (fs.attach.map (fun p => "\"" ++ p.1.1 ++ "\":" ++ stringifyRec p.1.2)) ++
        "\x7d"
decreasing_by
  all_goals simp_wf
  all_goals try (have h1 := List.sizeOf_lt_of_mem x.2; omega)
  all_goals
    have h1 := List.sizeOf_lt_of_mem p.2
    have h2 : sizeOf p.1.2 < sizeOf p.1 := by
      obtain ⟨a, b⟩ := p.1
      simp
    omega

/-- `JSON.stringify(v)`.  Identical to `stringifyRec` (see
`stringifyJson_eq_rec`); non-recursive cases spelled out so ground terms
reduce structurally. -/
def stringifyJson : JSVal → String
  | .undefined => "undefined"
  | .jnull => "null"
  | .bool b => cond b "true" "false"
  | .num q => toString q
  | .str s => "\"" ++ s ++ "\""
  | .arr xs => stringifyRec (.arr xs)
  | .obj fs => stringifyRec (.obj fs)

theorem stringifyJson_eq_rec : ∀ v, stringifyJson v = stringifyRec v := by
  intro v
  cases v <;> simp [stringifyJson, stringifyRec]

/-- JS `String(v || '')`, the conversion `saveProducts` applies to every
string-typed column. -/
def jsStr (v : JSVal) : String := jsToString (jsOr v (.str ""))

/-- JS `parseFloat(v)` for the values the scraper feeds it: numbers pass
through, strings go to the host parser `pf` (`none` models `NaN`),
everything else is `NaN`. -/
def parseFloatJs (pf : String → Option ℚ) : JSVal → Option ℚ
  | .num q => some q
  | .str s => pf s
  | _ => none

/-- JS `parseInt(v)` likewise, with host string parser `pint`. -/
def parseIntJs (pint : String → Option Int) : JSVal → Option Int
  | .num q => some q.floor
  | .str s => pint s
  | _ => none

/-- A category descriptor from `LKQ_CONFIG.categories`. -/
structure Category where
  name : String
  url : String

/-- The product record built by `extractProductsFromApi` for one raw API
item (the object literal at src/unnamed/part_003 lines 366-405).  Fields
the code parses are typed; fields it copies verbatim stay `JSVal`. -/
structure Product where
  sku : JSVal                       -- item.number || item.id
  title : JSVal                     -- item.descriptionRetail || item.description
  description : JSVal
  descriptionRetail : JSVal
  price : Option ℚ                  -- item.price ? parseFloat(item.price) : null
  listPrice : Option ℚ
  corePrice : Option ℚ
  imageUrl : Option String          -- first image if string-typed, else null
  productUrl : String               -- synthesized canonical URL
  categoryUrl : String              -- category.name
  category : JSVal
  mileage : Option Int              -- item.mileage ? parseInt(item.mileage) : null
  location : JSVal
  yardCity : JSVal
  yardState : JSVal
  sourceVehicleYear : JSVal
  sourceVehicleMake : JSVal
  sourceVehicleModel : JSVal
  sourceVehicleData : Option JSVal  -- defensively parsed JSON sub-document
  fitments : Option JSVal           -- defensively parsed JSON sub-document
  fitmentJson : Option JSVal        -- defensively parsed JSON sub-document
  interchange : JSVal
  type : JSVal
  code : JSVal
  unitOfMeasureCode : JSVal
  unitOfMeasure : JSVal
  companyCode : JSVal
  ftcDisplay : JSVal
  freeShippingEligible : JSVal
  isReman : JSVal
  requireVin : JSVal
  displayFinancing : JSVal
  remanFinanceIneligible : JSVal
  availability : JSVal
  images : JSVal
  categories : JSVal
  pricing : JSVal
  catalog : JSVal

/-- `normalize(rawItem, category)`: the body of the `productList.map`
callback in `extractProductsFromApi` (src/unnamed/part_003 lines 332-405).
`jp` is the host `JSON.parse` returning `none` on a parse failure (the
code catches the exception and leaves the field `null`). -/
def extractItem (jp : String → Option JSVal) (pf : String → Option ℚ)
    (pint : String → Option Int) (category : Category) (item : JSVal) : Product :=
  -- let sourceVehicleData = null; if (item._salvageSourceVehicle && typeof === 'string') try JSON.parse
  let sourceVehicleData : Option JSVal :=
    match fld item "_salvageSourceVehicle" with
    | .str s => if s == "" then none else jp s
    | _ => none
  let fitments : Option JSVal :=
    match fld item "fitments" with
    | .str s => if s == "" then none else jp s
    | _ => none
  let fitmentJson : Option JSVal :=
    match fld item "fitmentJson" with
    | .str s => if s == "" then none else jp s
    | _ => none
  -- imageUrl: first entry of item.images if it is a string, else null
  let imageUrl : Option String :=
    match fld item "images" with
    | .arr (x :: _) => match x with
      | .str s => some s
      | _ => none
    | _ => none
  { sku := jsOr (fld item "number") (fld item "id")
    title := jsOr (fld item "descriptionRetail") (fld item "description")
    description := fld item "description"
    descriptionRetail := fld item "descriptionRetail"
    price :=
      if truthy (fld item "price") then parseFloatJs pf (fld item "price") else none
    listPrice :=
      if truthy (fld item "listPrice") then parseFloatJs pf (fld item "listPrice") else none
    corePrice :=
      if truthy (fld item "corePrice") then parseFloatJs pf (fld item "corePrice") else none
    imageUrl := imageUrl
    productUrl :=
      "https://www.lkqonline.com/products/" ++
        jsToString (jsOr (fld item "number") (fld item "id"))
    categoryUrl := category.name
    category := fld item "category"
    mileage :=
      if truthy (fld item "mileage") then parseIntJs pint (fld item "mileage") else none
    location := fld item "location"
    yardCity := fld item "yardCity"
    yardState := fld item "yardState"
    sourceVehicleYear := fld item "sourceVehicleYear"
    sourceVehicleMake := fld item "sourceVehicleMake"
    sourceVehicleModel := fld item "sourceVehicleModel"
    sourceVehicleData := sourceVehicleData
    fitments := fitments
    fitmentJson := fitmentJson
    interchange := fld item "interchange"
    type := fld item "type"
    code := fld item "code"
    unitOfMeasureCode := fld item "unitOfMeasureCode"
    unitOfMeasure := fld item "unitOfMeasure"
    companyCode := fld item "companyCode"
    ftcDisplay := fld item "ftcDisplay"
    freeShippingEligible := fld item "freeShippingEligible"
    isReman := fld item "isReman"
    requireVin := fld item "requireVin"
    displayFinancing := fld item "displayFinancing"
    remanFinanceIneligible := fld item "remanFinanceIneligible"
    availability := fld item "availability"
    images := fld item "images"
    categories := fld item "categories"
    pricing := fld item "pricing"
    catalog := fld item "catalog" }

/-- `extractProductsFromApi(data, category, runId)` (src/unnamed/part_003
lines 321-420): `data.data || []`, reject non-arrays, map each item
through the normalizer.  The surrounding try/catch returning `[]` has no
reachable failing path in the pure model (every branch is total). -/
def extractProductsFromApi (jp : String → Option JSVal) (pf : String → Option ℚ)
    (pint : String → Option Int) (data : JSVal) (category : Category) : List Product :=
  let productList := jsOr (fld data "data") (.arr [])
  match productList with
  | .arr items => items.map (extractItem jp pf pint category)
  | _ => []

/-- Forget the three defensively-parsed JSON sub-fields of a record; used
to state that a sub-field parse failure affects no other field. -/
def eraseSub (p : Product) : Product :=
  { p with sourceVehicleData := none, fitments := none, fitmentJson := none }

/-- One stored `LkqProduct` row as `saveProducts` writes it: the
`productData` object of src/unnamed/part_003 lines 455-498
(`id`/`createdAt`/`updatedAt`, which the caller never sets or reads, are
not modelled). -/
structure ProductData where
  sku : String
  title : String
  description : String
  descriptionRetail : String
  price : Option ℚ
  listPrice : Option ℚ
  corePrice : Option ℚ
  imageUrl : Option String
  productUrl : String
  categoryUrl : String
  category : String
  mileage : Option ℚ
  location : String
  yardCity : String
  yardState : String
  sourceVehicleYear : String
  sourceVehicleMake : String
  sourceVehicleModel : String
  sourceVehicleData : Option String
  fitments : Option String
  fitmentJson : Option String
  interchange : String
  type : String
  code : String
  unitOfMeasureCode : String
  unitOfMeasure : String
  companyCode : String
  ftcDisplay : String
  freeShippingEligible : Bool
  isReman : Bool
  requireVin : Bool
  displayFinancing : Bool
  remanFinanceIneligible : Bool
  availability : String
  images : Option String
  categories : Option String
  pricing : Option String
  catalog : Option String
  scraperRunId : String
deriving DecidableEq

/-- JS `x ? parseFloat(x) : null` applied to an already-numeric optional
field (`0` is falsy, so it collapses to `null`). -/
def floatOfOptQ : Option ℚ → Option ℚ
  | some q => if q == 0 then none else some q
  | none => none

/-- JS `x ? parseFloat(x) : null` applied to the `Option Int` mileage
field. -/
def floatOfOptInt : Option Int → Option ℚ
  | some n => if n == 0 then none else some (n : ℚ)
  | none => none

/-- JS `x ? String(x) : null` applied to an `Option String` field
(the empty string is falsy). -/
def strOfOpt : Option String → Option String
  | some s => if s == "" then none else some s
  | none => none

/-- JS `x ? JSON.stringify(x) : null` applied to a parsed JSON
sub-document. -/
def stringifyOfOpt : Option JSVal → Option String
  | some v => if truthy v then some (stringifyJson v) else none
  | none => none

/-- JS `x ? JSON.stringify(x) : null` applied to a raw `JSVal` field. -/
def stringifyOfVal (v : JSVal) : Option String :=
  if truthy v then some (stringifyJson v) else none

/-- JS `x === true || x === 'true'`, the boolean normalization of
`saveProducts`. -/
def boolOfVal : JSVal → Bool
  | .bool b => b
  | .str s => s == "true"
  | _ => false

/-- The `productData` conversion `saveProducts` applies to each record
before upserting (src/unnamed/part_003 lines 455-498). -/
def toProductData (p : Product) (categoryName runId : String) : ProductData :=
  { sku := jsStr p.sku
    title := jsStr p.title
    description := jsStr p.description
    descriptionRetail := jsStr p.descriptionRetail
    price := floatOfOptQ p.price
    listPrice := floatOfOptQ p.listPrice
    corePrice := floatOfOptQ p.corePrice
    imageUrl := strOfOpt p.imageUrl
    productUrl := if p.productUrl == "" then "" else p.productUrl
    categoryUrl := if categoryName == "" then "" else categoryName
    category := jsStr p.category
    mileage := floatOfOptInt p.mileage
    location := jsStr p.location
    yardCity := jsStr p.yardCity
    yardState := jsStr p.yardState
    sourceVehicleYear := jsStr p.sourceVehicleYear
    sourceVehicleMake := jsStr p.sourceVehicleMake
    sourceVehicleModel := jsStr p.sourceVehicleModel
    sourceVehicleData := stringifyOfOpt p.sourceVehicleData
    fitments := stringifyOfOpt p.fitments
    fitmentJson := stringifyOfOpt p.fitmentJson
    interchange := jsStr p.interchange
    type := jsStr p.type
    code := jsStr p.code
    unitOfMeasureCode := jsStr p.unitOfMeasureCode
    unitOfMeasure := jsStr p.unitOfMeasure
    companyCode := jsStr p.companyCode
    ftcDisplay := jsStr p.ftcDisplay
    freeShippingEligible := boolOfVal p.freeShippingEligible
    isReman := boolOfVal p.isReman
    requireVin := boolOfVal p.requireVin
    displayFinancing := boolOfVal p.displayFinancing
    remanFinanceIneligible := boolOfVal p.remanFinanceIneligible
    availability := jsStr p.availability
    images := stringifyOfVal p.images
    categories := stringifyOfVal p.categories
    pricing := stringifyOfVal p.pricing
    catalog := stringifyOfVal p.catalog
    scraperRunId := runId }

/-- The `lkq_products` table, as a list of rows. -/
abbrev DB := List ProductData

/-- Prisma `upsert({where: {sku}, update: {...productData, updatedAt},
create: productData})`: overwrite the row with the matching unique `sku`
in place, or append a fresh row. -/
def upsert (db : DB) (pd : ProductData) : DB :=
  if db.any (fun r => r.sku == pd.sku) then
    db.map (fun r => if r.sku == pd.sku then pd else r)
  else
    db ++ [pd]

/-- The `{saved, duplicates, errors}` counters returned by
`saveProducts`. -/
structure SaveResults where
  saved : Nat
  duplicates : Nat
  errors : Nat
deriving DecidableEq

/-- One iteration of the per-record loop inside the batch transaction
(src/unnamed/part_003 lines 452-517): build `productData` and upsert;
a per-record failure (oracle `fails` on the record's global index) is
caught and counted, leaving the database untouched.  The upsert result is
the written row, which is always truthy, so `saved` increments on every
success. -/
def saveRecord (fails : Nat → Bool) (categoryName runId : String)
    (acc : DB × SaveResults × Nat) (p : Product) : DB × SaveResults × Nat :=
  if fails acc.2.2 then
    (acc.1, { acc.2.1 with errors := acc.2.1.errors + 1 }, acc.2.2 + 1)
  else
    (upsert acc.1 (toProductData p categoryName runId),
      { acc.2.1 with saved := acc.2.1.saved + 1 }, acc.2.2 + 1)

/-- `for (let i = 0; i < products.length; i += batchSize) slice(i, i+50)`:
split a list into consecutive chunks of `n` (the last one possibly
short). -/
def chunked (n : Nat) (l : List α) : List (List α) :=
  let step := fun (acc : List (List α) × List α × Nat) (x : α) =>
    let (bs, cur, c) := acc
    if c + 1 = n then (bs ++ [cur ++ [x]], [], 0) else (bs, cur ++ [x], c + 1)
  let r := l.foldl step ([], [], 0)
  if r.2.1.isEmpty then r.1 else r.1 ++ [r.2.1]

/-- The batch loop of `saveProducts`: each batch runs in one transaction.
If the transaction for batch `bIdx` fails at commit (oracle `txFails`),
its database effects roll back, the already-mutated counters survive, the
outer catch adds `products.length` to `errors` and returns. -/
def saveBatches (fails txFails : Nat → Bool) (categoryName runId : String)
    (total : Nat) : List (List Product) → Nat → Nat → DB → SaveResults →
    DB × SaveResults
  | [], _, _, db, res => (db, res)
  | batch :: rest, bIdx, idx0, db, res =>
    let r := batch.foldl (saveRecord fails categoryName runId) (db, res, idx0)
    if txFails bIdx then
      (db, { r.2.1 with errors := r.2.1.errors + total })
    else
      saveBatches fails txFails categoryName runId total rest (bIdx + 1) r.2.2 r.1 r.2.1

/-- `saveProducts(products, categoryName, runId)` (src/unnamed/part_003
lines 429-531) acting on database state `db`.  `fails i` says whether the
upsert of the `i`-th record throws; `txFails b` whether the transaction of
batch `b` fails at commit. -/
def saveProducts (fails txFails : Nat → Bool) (db : DB) (products : List Product)
    (categoryName runId : String) : DB × SaveResults :=
  if products.isEmpty then (db, ⟨0, 0, 0⟩)
  else saveBatches fails txFails categoryName runId products.length
    (chunked 50 products) 0 0 db ⟨0, 0, 0⟩

/-- The natural key under which a record is upserted:
`String(product.sku || '')`. -/
def skuKey (p : Product) : String := jsStr p.sku

/-- Number of stored rows carrying SKU `k`. -/
def skuCount (db : DB) (k : String) : Nat :=
  (db.filter (fun r => r.sku == k)).length

/-- The stored row carrying SKU `k`, if any. -/
def skuRow (db : DB) (k : String) : Option ProductData :=
  db.find? (fun r => r.sku == k)

/-- The outcome of one axios GET attempt inside `makeApiRequest`: an HTTP
response with some status, a network-level `ECONNRESET` or `ETIMEDOUT`
error, or any other request error without a response. -/
inductive ReqOutcome where
  | http (status : Nat) (body : JSVal)
  | connReset
  | timedOut
  | otherNetErr

/-- What `makeApiRequest` does with one attempt's outcome. -/
inductive ReqAction where
  | success (body : JSVal)            -- status 200: return response.data
  | badRequest                        -- status 400: throw Bad Request, non-retriable
  | retryNextProxyNoDelay             -- 429/407: recurse at once, next rotated proxy
  | retryAfterDelay (ms : Nat)        -- ≥500 / reset / timeout: sleep then recurse
  | propagate                         -- anything else: rethrow unretried

/-- The classification inside `makeApiRequest` (src/unnamed/part_003 lines
254-312).  Axios resolves 2xx responses (default `validateStatus`), the
code then demands exactly 200 and otherwise throws a plain `Error` that
carries no `response`/`code`, landing in the final `throw error`; non-2xx
responses reject with `error.response.status` and run the catch-block
ladder 400 / 429,407 / ≥500; `ECONNRESET`/`ETIMEDOUT` back off 1s; all
else is rethrown. -/
def classifyOutcome : ReqOutcome → ReqAction
  | .http s body =>
    if 200 ≤ s ∧ s < 300 then
      if s = 200 then .success body else .propagate
    else if s = 400 then .badRequest
    else if s = 429 ∨ s = 407 then .retryNextProxyNoDelay
    else if 500 ≤ s then .retryAfterDelay 1000
    else .propagate
  | .connReset => .retryAfterDelay 1000
  | .timedOut => .retryAfterDelay 1000
  | .otherNetErr => .propagate

/-- The classification exactly as claim C5 words it: 200 succeeds, 400 is
the non-retriable bad-request case, 429/407 retry immediately on the next
rotated proxy, ≥500 and connection-reset/timeout retry after a fixed 1s
backoff, and any other error propagates unretried. -/
def claimClassify : ReqOutcome → ReqAction
  | .http s body =>
    if s = 200 then .success body
    else if s = 400 then .badRequest
    else if s = 429 ∨ s = 407 then .retryNextProxyNoDelay
    else if 500 ≤ s then .retryAfterDelay 1000
    else .propagate
  | .connReset => .retryAfterDelay 1000
  | .timedOut => .retryAfterDelay 1000
  | .otherNetErr => .propagate

/-- How a `makeApiRequest` call can fail for its caller. -/
inductive FetchFail where
  | badRequest                        -- the wrapped Bad Request (400) error
  | propagated (o : ReqOutcome)       -- any other rethrown error

/-- `makeApiRequest` unrolled: attempt `a` sees `outs a`, retries recurse
on attempt `a+1` (consuming the next rotated proxy, since every call runs
`getNextProxy()`), `dl` accumulates the 1s backoffs.  The recursion is
unbounded in the source; `fuel` bounds the unrolling and `none` models
nontermination.  Returns (result, attempts used so far, total delay). -/
def makeApiRequestF (outs : Nat → ReqOutcome) :
    Nat → Nat → Nat → Option (Except FetchFail JSVal × Nat × Nat)
  | 0, _, _ => none
  | fuel + 1, a, dl =>
    match classifyOutcome (outs a) with
    | .success body => some (.ok body, a + 1, dl)
    | .badRequest => some (.error .badRequest, a + 1, dl)
    | .propagate => some (.error (.propagated (outs a)), a + 1, dl)
    | .retryNextProxyNoDelay => makeApiRequestF outs fuel (a + 1) dl
    | .retryAfterDelay ms => makeApiRequestF outs fuel (a + 1) (dl + ms)

/-- The proxy rotator's cursor after `k` calls to `next()`
(`rotateProxies` in src/config/proxy.js: starts at `startIndex = 0`,
yields the credential at the cursor, then advances `(i + 1) % N`). -/
def cursorAfter (n : Nat) : Nat → Nat
  | 0 => 0
  | k + 1 => (cursorAfter n k + 1) % n

/-- The credential index yielded by the `(k+1)`-th `next()` call (0-based
call counter): the generator yields the cursor before advancing it. -/
def nthRotIdx (n k : Nat) : Nat := cursorAfter n k

/-- The credential the `(k+1)`-th `OxylabsProxyManager.getNextProxy()`
call hands to `getProxyAgent`, which reads `PROXY_CREDENTIALS[index]`. -/
def rotYield (pool : List α) (k : Nat) : Option α :=
  pool.get? (nthRotIdx pool.length k)

/-- What one page-level `makeApiRequest` call looks like to the pagination
loop: it either throws (400 Bad Request, or any propagated error), or it
resolves with `response.data`. -/
inductive FetchOut where
  | thrown
  | data (d : JSVal)

/-- The per-category counters the pagination loop maintains (`stats` of
`scrape` restricted to one category, plus the loop-iteration and fetch
counts the claims are about). -/
structure CatStats where
  iterations : Nat
  fetches : Nat
  pagesProcessed : Nat
  pagesErrors : Nat
  scraped : Nat
  saved : Nat
  duplicates : Nat
  errors : Nat
deriving DecidableEq

def catStats0 : CatStats := ⟨0, 0, 0, 0, 0, 0, 0, 0⟩

/-- Everything the pagination loop of `scrape` consumes for one category:
the host parsers, the category descriptor, the run id, whether the
`new URL(apiUrl)` update succeeds (it is attempted only when `skip > 0`),
the fetch outcome per page number, and the persistence failure oracles per
page. -/
structure ScrapeEnv where
  jp : String → Option JSVal
  pf : String → Option ℚ
  pint : String → Option Int
  category : Category
  runId : String
  urlOk : Bool
  fetch : Nat → FetchOut
  recFails : Nat → Nat → Bool
  txFails : Nat → Nat → Bool

/-- Entering the loop body: count one iteration. -/
def stIter (st : CatStats) : CatStats := { st with iterations := st.iterations + 1 }

/-- Issuing a `makeApiRequest` call: count one fetch. -/
def stFetchInc (st : CatStats) : CatStats := { st with fetches := st.fetches + 1 }

/-- `stats.pages.errors++`. -/
def stPageErrInc (st : CatStats) : CatStats :=
  { st with pagesErrors := st.pagesErrors + 1 }

/-- `stats.pages.processed++`. -/
def stPageProcInc (st : CatStats) : CatStats :=
  { st with pagesProcessed := st.pagesProcessed + 1 }

/-- Merging one non-empty page: `stats.products.scraped += n` and the
three `saveResults` counters. -/
def stSaveMerge (st : CatStats) (n : Nat) (sv : SaveResults) : CatStats :=
  { st with
    scraped := st.scraped + n
    saved := st.saved + sv.saved
    duplicates := st.duplicates + sv.duplicates
    errors := st.errors + sv.errors }

/-- The success branch of a loop pass (src/unnamed/part_003 lines
125-160, up to the `hasMoreProducts` recomputation): extract the page;
when non-empty, save it and merge the counters; then
`stats.pages.processed++`.  (The interim `hasMoreProducts = false` of the
empty-page branch is overwritten by `hasMoreProducts = length === take`
right after, so it has no separate effect.) -/
def pageSuccess (env : ScrapeEnv) (pageNum : Nat) (db : DB) (st : CatStats)
    (d : JSVal) : DB × CatStats :=
  let pageProducts := extractProductsFromApi env.jp env.pf env.pint d env.category
  let n := pageProducts.length
  let dbst :=
    if 0 < n then
      let r := saveProducts (env.recFails pageNum) (env.txFails pageNum)
        db pageProducts env.category.name env.runId
      (r.1, stSaveMerge st n r.2)
    else (db, st)
  (dbst.1, stPageProcInc dbst.2)

/-- The `while (hasMoreProducts && pageNum <= maxPages)` loop of `scrape`
(src/unnamed/part_003 lines 96-178) with page size `take = 50`.  `fuel` is
always called with `maxPages + 1 - pageNum`, in which case the `fuel = 0`
base case coincides with the loop condition failing (see
`catLoopF_fuel_irrelevant`).  The branches mirror the source: URL-update
failure breaks; a thrown request error counts a page error, advances
`skip`/`pageNum` and continues while `pageNum ≤ maxPages`; a falsy
response counts a page error and breaks; otherwise `pageSuccess` processes
the page and the loop continues only when a full page (50) arrived and
`pageNum < maxPages`. -/
def catLoopF (env : ScrapeEnv) (maxPages : Nat) :
    Nat → Nat → Nat → DB → CatStats → DB × CatStats
  | 0, _, _, db, st => (db, st)
  | fuel + 1, pageNum, skip, db, st =>
    if pageNum ≤ maxPages then
      if 0 < skip ∧ env.urlOk = false then (db, stIter st)
      else
        match env.fetch pageNum with
        | .thrown =>
          if pageNum + 1 ≤ maxPages then
            catLoopF env maxPages fuel (pageNum + 1) (skip + 50) db
              (stPageErrInc (stFetchInc (stIter st)))
          else (db, stPageErrInc (stFetchInc (stIter st)))
        | .data d =>
          if truthy d = false then
            (db, stPageErrInc (stFetchInc (stIter st)))
          else
            if (extractProductsFromApi env.jp env.pf env.pint d env.category).length
                == 50 ∧ pageNum < maxPages then
              catLoopF env maxPages fuel (pageNum + 1) (skip + 50)
                (pageSuccess env pageNum db (stFetchInc (stIter st)) d).1
                (pageSuccess env pageNum db (stFetchInc (stIter st)) d).2
            else pageSuccess env pageNum db (stFetchInc (stIter st)) d
    else (db, st)

/-- `let maxPages = config.maxPages || 10` (`0` and absent are falsy). -/
def resolveMaxPages (cfgMaxPages : Option Nat) : Nat :=
  match cfgMaxPages with
  | some n => if n = 0 then 10 else n
  | none => 10

/-- One category's full pagination (`pageNum = 1`, `skip = 0`, fresh
per-category counters). -/
def scrapeCategory (env : ScrapeEnv) (cfgMaxPages : Option Nat) (db : DB) :
    DB × CatStats :=
  let mp := resolveMaxPages cfgMaxPages
  catLoopF env mp mp 1 0 db catStats0

/-- The sequence of `status` values `scrape` writes (through
`updateRunStatus`, src/unnamed/part_003) to the run record it maintains:
`'starting'` before the try block, `'running'` when API requests start
(and on every progress update, `updates` many), then `'completed'` on
normal finish or `'error'` from the fatal catch. -/
def scrapeStatusWrites (fatal : Bool) (updates : Nat) : List String :=
  "starting" :: "running" ::
    (List.replicate updates "running" ++ [if fatal then "error" else "completed"])

/-- The sequence of `status` values written to the run record the route
creates: `'pending'` at creation (src/api/routes/lkq.routes.js), then
`addScraperJob` (src/queues/scraper.queue.js) writes `'processing'`,
runs the scraper, and writes `'completed'` — unconditionally, because
`scrape` resolves even when it failed internally — or `'failed'` when the
job itself throws (e.g. the scraper row is missing).  `scrape`'s own
writes go to a different record: `runScraper` calls
`customLkqScraper.scrape(config)` without passing `options`, so `scrape`
generates a fresh `runId`. -/
def queueRunWrites (scraperFound : Bool) : List String :=
  if scraperFound then ["pending", "processing", "completed"]
  else ["pending", "processing", "failed"]

/-- The run statuses claim C4 allows. -/
def claimStatuses : List String :=
  ["pending", "running", "processing", "completed", "failed", "error"]

/-- The terminal statuses of claim C4. -/
def terminalStatuses : List String := ["completed", "failed", "error"]

/-- Position of a status along the claimed chain
`pending → running/processing → terminal`. -/
def chainRank (s : String) : Nat :=
  if s = "pending" then 0
  else if s = "running" ∨ s = "processing" then 1
  else 2

/-- Claim C4 as a predicate on the sequence of status writes of one run
record: every written value is one of the claimed statuses, successive
writes only move forward along the chain, and once a terminal status is
written every later write leaves it unchanged. -/
def claimForwardOk (tr : List String) : Prop :=
  (∀ s ∈ tr, s ∈ claimStatuses) ∧
  tr.Pairwise (fun a b => chainRank a ≤ chainRank b) ∧
  tr.Pairwise (fun a b => a ∈ terminalStatuses → b = a)

instance (tr : List String) : Decidable (claimForwardOk tr) := by
  unfold claimForwardOk
  infer_instance

/-- The extended status order actually realized by the code:
`pending < processing < starting < running < terminal`. -/
def extRank (s : String) : Nat :=
  if s = "pending" then 0
  else if s = "processing" then 1
  else if s = "starting" then 2
  else if s = "running" then 3
  else if s ∈ terminalStatuses then 4
  else 5

/-! ### Helper lemmas about the persistence layer -/

theorem skuCount_nil (k : String) : skuCount [] k = 0 := rfl

theorem count_zero_of_not_any (db : DB) (k : String)
    (h : db.any (fun r => r.sku == k) = false) : skuCount db k = 0 := by
  induction db with
  | nil => rfl
  | cons r db ih =>
    simp only [List.any_cons, Bool.or_eq_false_iff] at h
    simp only [skuCount, List.filter_cons, h.1]
    simpa [skuCount] using ih h.2

theorem count_pos_of_any (db : DB) (k : String)
    (h : db.any (fun r => r.sku == k) = true) : 0 < skuCount db k := by
  induction db with
  | nil => simp at h
  | cons r db ih =>
    simp only [List.any_cons, Bool.or_eq_true] at h
    simp only [skuCount, List.filter_cons]
    rcases hr : r.sku == k with _ | _
    · simp only [hr, Bool.false_eq_true, if_false]
      rcases h with h | h
      · rw [hr] at h; cases h
      · simpa [skuCount] using ih h
    · simp

theorem count_map_overwrite (db : DB) (pd : ProductData) :
    skuCount (db.map (fun r => if r.sku == pd.sku then pd else r)) pd.sku =
      skuCount db pd.sku := by
  induction db with
  | nil => rfl
  | cons r db ih =>
    simp only [List.map_cons, skuCount, List.filter_cons]
    rcases hr : r.sku == pd.sku with _ | _
    · simp only [hr, Bool.false_eq_true, if_false]
      simpa [skuCount] using ih
    · simp only [hr, if_true, beq_self_eq_true, List.length_cons]
      simpa [skuCount] using ih

theorem count_append_single (db : DB) (pd : ProductData) :
    skuCount (db ++ [pd]) pd.sku = skuCount db pd.sku + 1 := by
  simp [skuCount, List.filter_append]

/-- After an upsert into a table holding at most one row for the key,
exactly one row for the key remains. -/
theorem skuCount_upsert (db : DB) (pd : ProductData)
    (h : skuCount db pd.sku ≤ 1) : skuCount (upsert db pd) pd.sku = 1 := by
  unfold upsert
  rcases ha : db.any (fun r => r.sku == pd.sku) with _ | _
  · rw [if_neg (by simp [ha])]
    rw [count_append_single, count_zero_of_not_any db _ ha]
  · rw [if_pos (by simp [ha])]
    rw [count_map_overwrite]
    have := count_pos_of_any db _ ha
    omega

theorem find_map_overwrite (db : DB) (pd : ProductData)
    (h : db.any (fun r => r.sku == pd.sku) = true) :
    skuRow (db.map (fun r => if r.sku == pd.sku then pd else r)) pd.sku = some pd := by
  induction db with
  | nil => simp at h
  | cons r db ih =>
    simp only [List.any_cons, Bool.or_eq_true] at h
    simp only [List.map_cons, skuRow, List.find?]
    rcases hr : r.sku == pd.sku with _ | _
    · simp only [hr, Bool.false_eq_true, if_false, hr]
      rcases h with h | h
      · rw [hr] at h; cases h
      · simpa [skuRow] using ih h
    · simp [hr]

theorem find_append_single (db : DB) (pd : ProductData)
    (h : db.any (fun r => r.sku == pd.sku) = false) :
    skuRow (db ++ [pd]) pd.sku = some pd := by
  induction db with
  | nil => simp [skuRow, List.find?]
  | cons r db ih =>
    simp only [List.any_cons, Bool.or_eq_false_iff] at h
    simp only [List.cons_append, skuRow, List.find?, h.1]
    exact ih h.2

/-- After an upsert, the row stored under the record's key is exactly the
upserted record. -/
theorem skuRow_upsert (db : DB) (pd : ProductData) :
    skuRow (upsert db pd) pd.sku = some pd := by
  unfold upsert
  rcases ha : db.any (fun r => r.sku == pd.sku) with _ | _
  · rw [if_neg (by simp [ha])]
    exact find_append_single db pd ha
  · rw [if_pos (by simp [ha])]
    exact find_map_overwrite db pd ha

/-- `saveProducts` with one record and no injected failures is exactly one
upsert, counted as one save. -/
theorem saveProducts_single (db : DB) (r : Product) (c run : String) :
    saveProducts (fun _ => false) (fun _ => false) db [r] c run =
      (upsert db (toProductData r c run), ⟨1, 0, 0⟩) := rfl

theorem saveRecord_duplicates (fails : Nat → Bool) (c run : String)
    (acc : DB × SaveResults × Nat) (p : Product) :
    ((saveRecord fails c run acc p).2.1).duplicates = acc.2.1.duplicates := by
  obtain ⟨db, res, idx⟩ := acc
  unfold saveRecord
  split <;> rfl

theorem foldl_saveRecord_duplicates (fails : Nat → Bool) (c run : String)
    (batch : List Product) :
    ∀ acc : DB × SaveResults × Nat,
      ((batch.foldl (saveRecord fails c run) acc).2.1).duplicates =
        acc.2.1.duplicates := by
  induction batch with
  | nil => intro acc; rfl
  | cons p batch ih =>
    intro acc
    rw [List.foldl_cons, ih, saveRecord_duplicates]

theorem saveBatches_duplicates (fails txFails : Nat → Bool) (c run : String)
    (total : Nat) (chunks : List (List Product)) :
    ∀ (bIdx idx : Nat) (db : DB) (res : SaveResults),
      ((saveBatches fails txFails c run total chunks bIdx idx db res).2).duplicates =
        res.duplicates := by
  induction chunks with
  | nil => intro bIdx idx db res; rfl
  | cons batch rest ih =>
    intro bIdx idx db res
    rw [saveBatches]
    split
    · simp [foldl_saveRecord_duplicates]
    · rw [ih, foldl_saveRecord_duplicates]

/-! ### Helper lemmas about the pagination loop -/

theorem pageSuccess_iterations (env : ScrapeEnv) (pn : Nat) (db : DB)
    (st : CatStats) (d : JSVal) :
    ((pageSuccess env pn db st d).2).iterations = st.iterations := by
  unfold pageSuccess
  dsimp only
  split <;> simp [stPageProcInc, stSaveMerge]

theorem pageSuccess_fetches (env : ScrapeEnv) (pn : Nat) (db : DB)
    (st : CatStats) (d : JSVal) :
    ((pageSuccess env pn db st d).2).fetches = st.fetches := by
  unfold pageSuccess
  dsimp only
  split <;> simp [stPageProcInc, stSaveMerge]

/-- Each pass of the loop body increments `pageNum`, so `fuel` levels
admit at most `fuel` iterations. -/
theorem catLoopF_iter_le (env : ScrapeEnv) (mp : Nat) :
    ∀ (fuel pn skip : Nat) (db : DB) (st : CatStats),
      ((catLoopF env mp fuel pn skip db st).2).iterations ≤ st.iterations + fuel := by
  intro fuel
  induction fuel with
  | zero => intro pn skip db st; simp [catLoopF]
  | succ f ih =>
    intro pn skip db st
    rw [catLoopF]
    by_cases h1 : pn ≤ mp
    · rw [if_pos h1]
      by_cases h2 : 0 < skip ∧ env.urlOk = false
      · rw [if_pos h2]; simp [stIter]
      · rw [if_neg h2]
        cases hf : env.fetch pn with
        | thrown =>
          dsimp only
          by_cases h3 : pn + 1 ≤ mp
          · rw [if_pos h3]
            have := ih (pn + 1) (skip + 50) db (stPageErrInc (stFetchInc (stIter st)))
            simp [stPageErrInc, stFetchInc, stIter] at this ⊢
            omega
          · rw [if_neg h3]; simp [stPageErrInc, stFetchInc, stIter]
        | data d =>
          dsimp only
          by_cases h4 : truthy d = false
          · rw [if_pos h4]; simp [stPageErrInc, stFetchInc, stIter]
          · rw [if_neg h4]
            by_cases h5 :
              ((extractProductsFromApi env.jp env.pf env.pint d env.category).length
                == 50) = true ∧ pn < mp
            · rw [if_pos h5]
              have hrec := ih (pn + 1) (skip + 50)
                (pageSuccess env pn db (stFetchInc (stIter st)) d).1
                (pageSuccess env pn db (stFetchInc (stIter st)) d).2
              have h6 := pageSuccess_iterations env pn db (stFetchInc (stIter st)) d
              rw [show (stFetchInc (stIter st)).iterations = st.iterations + 1 from rfl] at h6
              omega
            · rw [if_neg h5]
              have h6 := pageSuccess_iterations env pn db (stFetchInc (stIter st)) d
              rw [show (stFetchInc (stIter st)).iterations = st.iterations + 1 from rfl] at h6
              omega
    · rw [if_neg h1]
      simp

/-- The loop result does not depend on the fuel once the fuel covers the
remaining page budget `maxPages + 1 - pageNum`; in particular
`scrapeCategory`'s choice `fuel = maxPages` (with `pageNum = 1`) is
exact, so the fuel never cuts the loop short. -/
theorem catLoopF_fuel_irrelevant (env : ScrapeEnv) (mp : Nat) :
    ∀ (f g pn skip : Nat) (db : DB) (st : CatStats),
      mp + 1 - pn ≤ f → mp + 1 - pn ≤ g →
      catLoopF env mp f pn skip db st = catLoopF env mp g pn skip db st := by
  intro f
  induction f with
  | zero =>
    intro g pn skip db st hf hg
    have hpn : ¬ pn ≤ mp := by omega
    cases g with
    | zero => rfl
    | succ g => rw [catLoopF, catLoopF, if_neg hpn]
  | succ f ih =>
    intro g pn skip db st hf hg
    cases g with
    | zero =>
      have hpn : ¬ pn ≤ mp := by omega
      rw [catLoopF, catLoopF, if_neg hpn]
    | succ g =>
      rw [catLoopF]
      conv_rhs => rw [catLoopF]
      by_cases h1 : pn ≤ mp
      · rw [if_pos h1, if_pos h1]
        by_cases h2 : 0 < skip ∧ env.urlOk = false
        · rw [if_pos h2, if_pos h2]
        · rw [if_neg h2, if_neg h2]
          cases hfout : env.fetch pn with
          | thrown =>
            dsimp only
            by_cases h3 : pn + 1 ≤ mp
            · rw [if_pos h3, if_pos h3]
              exact ih g (pn + 1) (skip + 50) db _ (by omega) (by omega)
            · rw [if_neg h3, if_neg h3]
          | data d =>
            dsimp only
            by_cases h4 : truthy d = false
            · rw [if_pos h4, if_pos h4]
            · rw [if_neg h4, if_neg h4]
              by_cases h5 :
                ((extractProductsFromApi env.jp env.pf env.pint d env.category).length
                  == 50) = true ∧ pn < mp
              · rw [if_pos h5, if_pos h5]
                exact ih g (pn + 1) (skip + 50) _ _ (by omega) (by omega)
              · rw [if_neg h5, if_neg h5]
      · rw [if_neg h1, if_neg h1]

/-! ### Helper lemmas about the proxy rotator -/

theorem cursorAfter_mod (n : Nat) : ∀ k, cursorAfter n k = k % n := by
  intro k
  induction k with
  | zero => simp [cursorAfter]
  | succ k ih => rw [cursorAfter, ih, Nat.mod_add_mod]

/-! ### Helper lemmas about status-write traces -/

theorem pairwise_replicate_concat (R : String → String → Prop) (t : String)
    (h1 : R "running" "running") (h2 : R "running" t) :
    ∀ u, (List.replicate u "running" ++ [t]).Pairwise R := by
  intro u
  induction u with
  | zero => simp
  | succ u ih =>
    rw [List.replicate_succ, List.cons_append]
    refine List.Pairwise.cons ?_ ih
    intro b hb
    rcases List.mem_append.1 hb with h | h
    · rw [List.eq_of_mem_replicate h]; exact h1
    · simp at h; rw [h]; exact h2

theorem scrapeWrites_pairwise (R : String → String → Prop) (fatal : Bool) (u : Nat)
    (h1 : R "starting" "running") (h2 : R "starting" (if fatal then "error" else "completed"))
    (h3 : R "running" "running") (h4 : R "running" (if fatal then "error" else "completed")) :
    (scrapeStatusWrites fatal u).Pairwise R := by
  unfold scrapeStatusWrites
  refine List.Pairwise.cons ?_ (List.Pairwise.cons ?_ (pairwise_replicate_concat R _ h3 h4 u))
  · intro b hb
    have hb2 : b = "running" ∨ b = (if fatal then "error" else "completed") := by
      simp only [List.mem_cons, List.mem_append] at hb
      rcases hb with h | h | h
      · exact Or.inl h
      · exact Or.inl (List.eq_of_mem_replicate h)
      · simp at h; exact Or.inr h
    rcases hb2 with h | h
    · rw [h]; exact h1
    · rw [h]; exact h2
  · intro b hb
    rcases List.mem_append.1 hb with h | h
    · rw [List.eq_of_mem_replicate h]; exact h3
    · simp at h; rw [h]; exact h4

theorem scrapeWrites_getLast (fatal : Bool) (u : Nat) :
    (scrapeStatusWrites fatal u).getLast? =
      some (if fatal then "error" else "completed") := by
  unfold scrapeStatusWrites
  rw [show ("starting" :: "running" ::
      (List.replicate u "running" ++ [if fatal then "error" else "completed"])) =
      ("starting" :: "running" :: List.replicate u "running") ++
        [if fatal then "error" else "completed"] by simp]
  exact List.getLast?_concat _

/-! ### Concrete inputs used by witnesses and counterexamples -/

/-- A category from `LKQ_CONFIG.categories`. -/
def catW : Category :=
  ⟨"Engine Assembly",
    "https://www.lkqonline.com/api/catalog/0/product?catalogId=0&skip=0&take=50"⟩

/-- An environment whose only upstream behaviour is an HTTP 400 on every
page: `makeApiRequest` wraps the 400 in an `Error` and throws, which the
page loop sees as a thrown fetch. -/
def envAll400 : ScrapeEnv :=
  { jp := fun _ => none, pf := fun _ => none, pint := fun _ => none,
    category := catW, runId := "w400", urlOk := true,
    fetch := fun _ => .thrown, recFails := fun _ _ => false,
    txFails := fun _ _ => false }

/-- An environment whose first page resolves with an empty product
array. -/
def envShort : ScrapeEnv :=
  { jp := fun _ => none, pf := fun _ => none, pint := fun _ => none,
    category := catW, runId := "wshort", urlOk := true,
    fetch := fun _ => .data (.obj [("data", .arr [])]),
    recFails := fun _ _ => false, txFails := fun _ _ => false }

/-- A raw item whose three JSON-encoded sub-fields are all present and
non-empty strings. -/
def itemW : JSVal :=
  .obj [("_salvageSourceVehicle", .str "bad"), ("fitments", .str "bad2"),
    ("fitmentJson", .str "bad3"), ("number", .str "N1")]

/-- A `JSON.parse` that fails on every input. -/
def jpNone : String → Option JSVal := fun _ => none

/-- A `JSON.parse` that succeeds on every input. -/
def jpSome : String → Option JSVal := fun _ => some .jnull

/-- A concrete product record with SKU `"SKU-1"` and a varying title. -/
def witnessProduct (t : String) : Product :=
  { sku := .str "SKU-1", title := .str t, description := .undefined,
    descriptionRetail := .undefined, price := none, listPrice := none,
    corePrice := none, imageUrl := none,
    productUrl := "https://www.lkqonline.com/products/SKU-1",
    categoryUrl := "Engine Assembly", category := .undefined, mileage := none,
    location := .undefined, yardCity := .undefined, yardState := .undefined,
    sourceVehicleYear := .undefined, sourceVehicleMake := .undefined,
    sourceVehicleModel := .undefined, sourceVehicleData := none, fitments := none,
    fitmentJson := none, interchange := .undefined, type := .undefined, code := .undefined,
    unitOfMeasureCode := .undefined, unitOfMeasure := .undefined, companyCode := .undefined,
    ftcDisplay := .undefined, freeShippingEligible := .undefined, isReman := .undefined,
    requireVin := .undefined, displayFinancing := .undefined,
    remanFinanceIneligible := .undefined, availability := .undefined, images := .undefined,
    categories := .undefined, pricing := .undefined, catalog := .undefined }

/-- Attempt outcomes: one 429, then success. -/
def outs429 : Nat → ReqOutcome :=
  fun a => if a = 0 then .http 429 .jnull else .http 200 (.str "ok")

/-- Attempt outcomes: one 503, then success. -/
def outs503 : Nat → ReqOutcome :=
  fun a => if a = 0 then .http 503 .jnull else .http 200 (.str "ok")

/-! ### Claim theorems -/

/-- C9: for every input record list (and every per-record / per-batch
failure behaviour and database state), `saveProducts` returns a result
whose `duplicates` counter equals 0 — no code path increments it, even
when the upsert takes the overwrite branch, so `products.duplicates` is 0
for every run. -/
theorem saveProducts_duplicates_zero (fails txFails : Nat → Bool) (db : DB)
    (products : List Product) (categoryName runId : String) :
    ((saveProducts fails txFails db products categoryName runId).2).duplicates = 0 := by
  unfold saveProducts
  split
  · rfl
  · rw [saveBatches_duplicates]

/-- C2: for every category environment (hence every sequence of upstream
page outcomes: success, empty page, short page, per-page error) and every
configured `maxPages`, the pagination loop of `scrape` performs at most
`maxPages` iterations (`config.maxPages || 10`), so the iteration count
never exceeds the configured ceiling. -/
theorem pagination_bounded (env : ScrapeEnv) (cfgMaxPages : Option Nat) (db : DB) :
    ((scrapeCategory env cfgMaxPages db).2).iterations ≤ resolveMaxPages cfgMaxPages := by
  unfold scrapeCategory
  have h := catLoopF_iter_le env (resolveMaxPages cfgMaxPages)
    (resolveMaxPages cfgMaxPages) 1 0 db catStats0
  simpa [catStats0] using h

/-- C7: for a credential pool of size `N ≥ 1`, the `k`-th `next()` call
(`k < N`) of the rotator returns exactly the `k`-th credential — each of
the `N` credentials exactly once, in pool order — and the `(N+1)`-th call
returns the first credential again (cyclic with period `N`). -/
theorem proxyRotation_cyclic (pool : List α) (_hN : 1 ≤ pool.length) :
    (∀ k, k < pool.length → rotYield pool k = pool.get? k) ∧
      rotYield pool pool.length = pool.get? 0 := by
  constructor
  · intro k hk
    unfold rotYield nthRotIdx
    rw [cursorAfter_mod, Nat.mod_eq_of_lt hk]
  · unfold rotYield nthRotIdx
    rw [cursorAfter_mod, Nat.mod_self]

/-- Witness for C7 at the three-credential pool of `PROXY_CREDENTIALS`. -/
theorem proxyRotation_cyclic_witness :
    rotYield ["u1", "u2", "u3"] 1 = some "u2" ∧
      rotYield ["u1", "u2", "u3"] 3 = some "u1" := by
  constructor
  · have h := (proxyRotation_cyclic ["u1", "u2", "u3"] (by decide)).1 1 (by decide)
    rw [h]; rfl
  · have h := (proxyRotation_cyclic ["u1", "u2", "u3"] (by decide)).2
    rw [show (3 : Nat) = ["u1", "u2", "u3"].length from rfl, h]; rfl

/-- C1: persisting a record for a SKU and then persisting a second record
for the same SKU with different field values (via `saveProducts`'
per-record upsert keyed on `sku`) leaves exactly one stored row for that
SKU — given the schema invariant that the initial table holds at most one
row per SKU — and that row carries exactly the second call's converted
field values and run back-reference: update-in-place, never a duplicate
row. -/
theorem sku_upsert_second_wins (db : DB) (r1 r2 : Product)
    (cat1 cat2 run1 run2 : String)
    (hU : skuCount db (skuKey r2) ≤ 1) (hk : skuKey r1 = skuKey r2) :
    skuCount ((saveProducts (fun _ => false) (fun _ => false)
        ((saveProducts (fun _ => false) (fun _ => false) db [r1] cat1 run1).1)
        [r2] cat2 run2).1) (skuKey r2) = 1 ∧
    skuRow ((saveProducts (fun _ => false) (fun _ => false)
        ((saveProducts (fun _ => false) (fun _ => false) db [r1] cat1 run1).1)
        [r2] cat2 run2).1) (skuKey r2) = some (toProductData r2 cat2 run2) ∧
    (toProductData r2 cat2 run2).scraperRunId = run2 := by
  have hsku1 : (toProductData r1 cat1 run1).sku = skuKey r1 := rfl
  have hsku2 : (toProductData r2 cat2 run2).sku = skuKey r2 := rfl
  rw [saveProducts_single, saveProducts_single]
  dsimp only
  refine ⟨?_, ?_, rfl⟩
  · have h1 : skuCount (upsert db (toProductData r1 cat1 run1)) (skuKey r2) = 1 := by
      have h := skuCount_upsert db (toProductData r1 cat1 run1)
        (by rw [hsku1, hk]; exact hU)
      rw [hsku1, hk] at h
      exact h
    have h2 := skuCount_upsert (upsert db (toProductData r1 cat1 run1))
      (toProductData r2 cat2 run2) (by rw [hsku2]; exact le_of_eq h1)
    rw [hsku2] at h2
    exact h2
  · have h := skuRow_upsert (upsert db (toProductData r1 cat1 run1))
      (toProductData r2 cat2 run2)
    rw [hsku2] at h
    exact h

/-- Witness for C1: two records with the same SKU and different titles
against the empty table. -/
theorem sku_upsert_second_wins_witness :
    skuCount ((saveProducts (fun _ => false) (fun _ => false)
        ((saveProducts (fun _ => false) (fun _ => false) []
          [witnessProduct "titleA"] "c1" "run1").1)
        [witnessProduct "titleB"] "c2" "run2").1)
      (skuKey (witnessProduct "titleB")) = 1 ∧
    skuRow ((saveProducts (fun _ => false) (fun _ => false)
        ((saveProducts (fun _ => false) (fun _ => false) []
          [witnessProduct "titleA"] "c1" "run1").1)
        [witnessProduct "titleB"] "c2" "run2").1)
      (skuKey (witnessProduct "titleB")) =
      some (toProductData (witnessProduct "titleB") "c2" "run2") ∧
    (toProductData (witnessProduct "titleB") "c2" "run2").scraperRunId = "run2" :=
  sku_upsert_second_wins [] (witnessProduct "titleA") (witnessProduct "titleB")
    "c1" "c2" "run1" "run2" (by rw [skuCount_nil]; omega) rfl

/-- C6: for every category whose first fetched page resolves and yields
strictly fewer than `take = 50` records (including zero), the paginator
performs exactly one fetch for that category: the category is exhausted
and no second request is issued. -/
theorem first_short_page_one_fetch (env : ScrapeEnv) (cfgMaxPages : Option Nat)
    (db : DB) (d : JSVal)
    (h1 : env.fetch 1 = .data d) (h2 : truthy d = true)
    (h3 : (extractProductsFromApi env.jp env.pf env.pint d env.category).length < 50) :
    ((scrapeCategory env cfgMaxPages db).2).fetches = 1 := by
  unfold scrapeCategory
  have hpos : 0 < resolveMaxPages cfgMaxPages := by
    rcases cfgMaxPages with _ | n
    · simp [resolveMaxPages]
    · simp only [resolveMaxPages]
      split <;> omega
  obtain ⟨m, hm⟩ : ∃ m, resolveMaxPages cfgMaxPages = m + 1 :=
    ⟨resolveMaxPages cfgMaxPages - 1, by omega⟩
  rw [hm]
  rw [catLoopF, if_pos (by omega : 1 ≤ m + 1),
    if_neg (by simp : ¬ (0 < 0 ∧ env.urlOk = false)), h1]
  dsimp only
  rw [if_neg (by simp [h2] : ¬ truthy d = false)]
  rw [if_neg ?hc]
  case hc =>
    rintro ⟨hc, -⟩
    have hc2 : (extractProductsFromApi env.jp env.pf env.pint d env.category).length = 50 := by
      simpa using hc
    exact absurd hc2 (by omega)
  rw [pageSuccess_fetches]
  rfl

/-- Witness for C6: the first page resolves with an empty `data` array
(zero records), and exactly one fetch happens. -/
theorem first_short_page_one_fetch_witness :
    ((scrapeCategory envShort none []).2).fetches = 1 :=
  first_short_page_one_fetch envShort none [] (.obj [("data", .arr [])])
    rfl rfl (by decide)

/-- C8: the normalizer parses the embedded JSON-encoded sub-fields
(source vehicle data, fitments, fitmentJson) defensively: when the host
parser fails on a sub-field that is present as a non-empty string, that
sub-field of the produced record is absent (`none`), while every other
field of the record is produced independently of the parser (so a
sub-field parse failure never aborts the record; the embedding is total,
so it never raises). -/
theorem normalizer_defensive_parse (jp : String → Option JSVal)
    (pf : String → Option ℚ) (pint : String → Option Int)
    (cat : Category) (item : JSVal) :
    (∀ s, fld item "_salvageSourceVehicle" = .str s → s ≠ "" → jp s = none →
      (extractItem jp pf pint cat item).sourceVehicleData = none) ∧
    (∀ s, fld item "fitments" = .str s → s ≠ "" → jp s = none →
      (extractItem jp pf pint cat item).fitments = none) ∧
    (∀ s, fld item "fitmentJson" = .str s → s ≠ "" → jp s = none →
      (extractItem jp pf pint cat item).fitmentJson = none) ∧
    (∀ jp' : String → Option JSVal,
      eraseSub (extractItem jp pf pint cat item) =
        eraseSub (extractItem jp' pf pint cat item)) := by
  refine ⟨?_, ?_, ?_, ?_⟩
  · intro s hs hne hjp
    simp [extractItem, hs, hne, hjp]
  · intro s hs hne hjp
    simp [extractItem, hs, hne, hjp]
  · intro s hs hne hjp
    simp [extractItem, hs, hne, hjp]
  · intro jp'
    simp [eraseSub, extractItem]

/-- Witness for C8: an item carrying all three sub-fields as non-empty
strings, a parser that always fails, and a second parser that always
succeeds. -/
theorem normalizer_defensive_parse_witness :
    (extractItem jpNone (fun _ => none) (fun _ => none) catW itemW).sourceVehicleData
      = none ∧
    (extractItem jpNone (fun _ => none) (fun _ => none) catW itemW).fitments = none ∧
    (extractItem jpNone (fun _ => none) (fun _ => none) catW itemW).fitmentJson = none ∧
    eraseSub (extractItem jpNone (fun _ => none) (fun _ => none) catW itemW) =
      eraseSub (extractItem jpSome (fun _ => none) (fun _ => none) catW itemW) := by
  have h := normalizer_defensive_parse jpNone (fun _ => none) (fun _ => none) catW itemW
  exact ⟨h.1 "bad" rfl (by decide) rfl, h.2.1 "bad2" rfl (by decide) rfl,
    h.2.2.1 "bad3" rfl (by decide) rfl, h.2.2.2 jpSome⟩

/-- C10: `extractProductsFromApi` is total and always returns a list: for
every input value it either returns `[]` or the `data` field is an array
and the result is the item-wise normalization of that array — in
particular, when the `data` field is missing (or not an array) it returns
the empty list, and no input makes it propagate an exception to the
paginator (the embedding is a total function). -/
theorem extract_total (jp : String → Option JSVal) (pf : String → Option ℚ)
    (pint : String → Option Int) (cat : Category) (d : JSVal) :
    ((extractProductsFromApi jp pf pint d cat = []) ∨
      ∃ xs, fld d "data" = .arr xs ∧
        extractProductsFromApi jp pf pint d cat =
          xs.map (extractItem jp pf pint cat)) ∧
    (fld d "data" = .undefined → extractProductsFromApi jp pf pint d cat = []) := by
  constructor
  · cases hd : fld d "data" with
    | arr xs =>
      right
      refine ⟨xs, rfl, ?_⟩
      simp [extractProductsFromApi, hd, jsOr, truthy]
    | undefined => left; simp [extractProductsFromApi, hd, jsOr, truthy]
    | jnull => left; simp [extractProductsFromApi, hd, jsOr, truthy]
    | bool b =>
      left
      cases b <;> simp [extractProductsFromApi, hd, jsOr, truthy]
    | num q =>
      left
      by_cases hq : q = 0 <;> simp [extractProductsFromApi, hd, jsOr, truthy, hq]
    | str s =>
      left
      by_cases hs : s = "" <;> simp [extractProductsFromApi, hd, jsOr, truthy, hs]
    | obj fs => left; simp [extractProductsFromApi, hd, jsOr, truthy]
  · intro h
    simp [extractProductsFromApi, h, jsOr, truthy]

/-- Witness for C10: a response object without a `data` field yields the
empty list. -/
theorem extract_total_witness :
    extractProductsFromApi (fun _ => none) (fun _ => none) (fun _ => none)
      (.obj [("other", .jnull)]) catW = [] :=
  (extract_total (fun _ => none) (fun _ => none) (fun _ => none) catW
    (.obj [("other", .jnull)])).2 rfl

/-- C3 counterexample: the claim says an HTTP 400 aborts the current
category's pagination loop and the scenario run shows `pages.errors = 1`;
in the code, `makeApiRequest` wraps the 400 in a thrown `Error`
(`classifyOutcome` = `badRequest`), and the page loop's catch handler
counts the error and advances past the page instead of aborting: with
every page of the run's only category answering 400, the loop performs
all 10 fetches and ends with `pages.errors = 10`, not 1. -/
theorem badRequest_abort_counterexample :
    classifyOutcome (.http 400 .jnull) = .badRequest ∧
    ((scrapeCategory envAll400 none []).2).fetches = 10 ∧
    ((scrapeCategory envAll400 none []).2).pagesErrors = 10 ∧
    ¬ ((scrapeCategory envAll400 none []).2).pagesErrors = 1 := by
  refine ⟨rfl, by decide, by decide, by decide⟩

/-- C3 amended: an HTTP 400 response is never retried by the fetch client
— `makeApiRequest` throws the wrapped Bad Request error after a single
attempt — and in the pagination loop it is handled as a page-level error:
the error is counted and the loop advances to the next page rather than
aborting, so a run whose only category answers HTTP 400 on every page
still reaches `completed` (zero products saved) with `pages.errors` equal
to the resolved `maxPages` ceiling (10 by default), not 1. -/
theorem badRequest_page_error_semantics :
    (∀ (outs : Nat → ReqOutcome) (b : JSVal) (fuel a dl : Nat),
      outs a = .http 400 b →
      makeApiRequestF outs (fuel + 1) a dl = some (.error .badRequest, a + 1, dl)) ∧
    ((scrapeCategory envAll400 none []).2).saved = 0 ∧
    ((scrapeCategory envAll400 none []).2).pagesErrors = resolveMaxPages none ∧
    (∀ u, (scrapeStatusWrites false u).getLast? = some "completed") := by
  refine ⟨?_, by decide, by decide, ?_⟩
  · intro outs b fuel a dl h
    rw [makeApiRequestF, h]
    rfl
  · intro u
    simpa using scrapeWrites_getLast false u

/-- Witness for the amended C3: a first attempt answering 400 fails at
once with the Bad Request error, no retry. -/
theorem badRequest_page_error_semantics_witness :
    makeApiRequestF (fun _ => .http 400 .jnull) 1 0 0 =
      some (.error .badRequest, 1, 0) :=
  badRequest_page_error_semantics.1 (fun _ => .http 400 .jnull) .jnull 0 0 0 rfl

/-- C4 counterexample: `scrape` writes the status `'starting'` (its very
first `updateRunStatus` call) to the run record it maintains — a value
outside the claimed chain `pending → running/processing →
{completed, failed, error}` — so the claim's forward-transition predicate
fails on the status-write trace of an ordinary successful run. -/
theorem run_status_forward_counterexample :
    "starting" ∈ scrapeStatusWrites false 0 ∧
    "starting" ∉ claimStatuses ∧
    ¬ claimForwardOk (scrapeStatusWrites false 0) := by
  refine ⟨by decide, by decide, by decide⟩

/-- C4 amended: the run record of the queue path transitions
`pending → processing → completed/failed` — forward along the claimed
chain with terminal statuses written exactly once, last — while `scrape`
writes its progress to a separate run record (`runScraper` drops
`options`, so `scrape` generates a fresh run id) whose statuses follow the
extended order `starting < running < terminal` monotonically, with its
terminal status (`completed` or `error`) written exactly once, as the last
update. -/
theorem run_status_extended_order (scraperFound fatal : Bool) (updates : Nat) :
    claimForwardOk (queueRunWrites scraperFound) ∧
    (scrapeStatusWrites fatal updates).Pairwise
      (fun a b => extRank a ≤ extRank b) ∧
    (scrapeStatusWrites fatal updates).Pairwise
      (fun a b => a ∈ terminalStatuses → b = a) := by
  refine ⟨?_, ?_, ?_⟩
  · cases scraperFound <;> decide
  · exact scrapeWrites_pairwise _ fatal updates (by decide)
      (by cases fatal <;> decide) (by decide) (by cases fatal <;> decide)
  · exact scrapeWrites_pairwise _ fatal updates (by decide)
      (by cases fatal <;> decide) (by decide) (by cases fatal <;> decide)

/-- C5: the fetch client classifies each request outcome as specified
(`classifyOutcome`, read off the code, coincides with `claimClassify`,
read off the claim: 429/407 retry immediately with the next rotated proxy
and no delay, status ≥ 500 and connection-reset/timeout wait a fixed 1s
backoff and retry, anything other than 200 and the 400 case propagates
unretried); concretely, a 429-then-200 run uses two attempts (two rotated
proxies) with zero accumulated delay, and a 503-then-200 run uses two
attempts with 1000 ms accumulated delay. -/
theorem fetch_classification :
    (∀ o, classifyOutcome o = claimClassify o) ∧
    makeApiRequestF outs429 2 0 0 = some (.ok (.str "ok"), 2, 0) ∧
    makeApiRequestF outs503 2 0 0 = some (.ok (.str "ok"), 2, 1000) := by
  refine ⟨?_, rfl, rfl⟩
  intro o
  cases o with
  | http s b =>
    simp only [classifyOutcome, claimClassify]
    split_ifs <;> first | rfl | omega
  | connReset => rfl
  | timedOut => rfl
  | otherNetErr => rfl

end Xpedia
